import Mathlib

/-!
Verification of the HekTradeHub trading utilities (Python/pandas) against
their natural-language specification.

Modelling conventions, used throughout this file:

* A pandas `Series` of floats is modelled as a function `ℕ → Option ℚ`
  (index 0 = oldest bar).  `some q` is a finite float value, `none` stands
  for a non-finite float (`NaN`, or an infinity produced by a division by
  zero).  Arithmetic on such values propagates `none`, and comparisons
  against `none` are `false`, exactly as pandas comparisons against `NaN`
  evaluate to `False`.
* Candle columns (`open/high/low/close/volume`) hold finite floats, so they
  are modelled as total functions `ℕ → ℚ` together with a length `n`.
* Float arithmetic is idealised as exact rational arithmetic; the literal
  `1e-9` epsilons of the source become the rational `1/10^9`.
* `rolling(window=p)` aggregations use the pandas default
  `min_periods = p`: the result is `none` until the window is full, and
  `none` whenever the window contains a `NaN`.
-/

namespace HekTradeHub

/-- Addition on possibly-NaN values (NaN propagates). -/
def oadd : Option ℚ → Option ℚ → Option ℚ
  | some a, some b => some (a + b)
  | _, _ => none

/-- Subtraction on possibly-NaN values (NaN propagates). -/
def osub : Option ℚ → Option ℚ → Option ℚ
  | some a, some b => some (a - b)
  | _, _ => none

/-- Multiplication on possibly-NaN values (NaN propagates). -/
def omul : Option ℚ → Option ℚ → Option ℚ
  | some a, some b => some (a * b)
  | _, _ => none

/-- Division on possibly-NaN values.  A zero divisor yields a non-finite
float (`inf` or `NaN`), modelled as `none`. -/
def odiv : Option ℚ → Option ℚ → Option ℚ
  | some a, some b => if b = 0 then none else some (a / b)
  | _, _ => none

/-- A pandas comparison `x < c`: `NaN < c` is `False`. -/
def oltC (x : Option ℚ) (c : ℚ) : Bool :=
  match x with
  | some v => decide (v < c)
  | none => false

/-- A pandas comparison `x > c`: `NaN > c` is `False`. -/
def ogtC (x : Option ℚ) (c : ℚ) : Bool :=
  match x with
  | some v => decide (c < v)
  | none => false

/-- A pandas series of possibly-NaN float values, indexed from the oldest bar. -/
abbrev OSeries := ℕ → Option ℚ

/-- View a finite column (e.g. a candle close column) as a pandas series. -/
def liftSeries (s : ℕ → ℚ) : OSeries := fun i => some (s i)

/-- View a concrete list of finite values as a pandas series (out-of-range
indices are never consulted by the theorems below). -/
def ofList (l : List ℚ) : OSeries := fun i => l[i]?

/-- Extract the values of a window if none of them is NaN. -/
def seqOption : List (Option ℚ) → Option (List ℚ)
  | [] => some []
  | none :: _ => none
  | some v :: rest => (seqOption rest).map (v :: ·)

/-- The length-`p` window of `s` ending at index `i` (as pandas
`rolling(window=p)` sees it once `i + 1 ≥ p`). -/
def windowAt (s : OSeries) (p i : ℕ) : List (Option ℚ) :=
  (List.range p).map fun j => s (i + 1 - p + j)

/-- Model of `s.rolling(window=p).sum()` with the default
`min_periods = p`. -/
def rollingSum (p : ℕ) (s : OSeries) : OSeries := fun i =>
  if i + 1 < p then none
  else (seqOption (windowAt s p i)).map List.sum

/-- Model of `s.rolling(window=p).mean()` with the default
`min_periods = p`. -/
def rollingMean (p : ℕ) (s : OSeries) : OSeries := fun i =>
  (rollingSum p s i).map (· / (p : ℚ))

/-- Model of `s.diff()`: first entry NaN, then consecutive differences. -/
def sdiff (s : OSeries) : OSeries := fun i =>
  match i with
  | 0 => none
  | j + 1 => osub (s (j + 1)) (s j)

/-- Model of `delta.where(delta > 0, 0)` (pandas `where` keeps the value
where the condition holds, else substitutes 0; the condition is `False` at
NaN, so NaN entries also become 0). -/
def whereGtZero (s : OSeries) : OSeries := fun i =>
  match s i with
  | some v => if 0 < v then some v else some 0
  | none => some 0

/-- Model of `-delta.where(delta < 0, 0)` (keep where negative, else 0,
then negate). -/
def negWhereLtZero (s : OSeries) : OSeries := fun i =>
  match s i with
  | some v => if v < 0 then some (-v) else some 0
  | none => some 0

/-- The epsilon literal `1e-9` used by the guarded implementations. -/
def eps : ℚ := 1 / 1000000000

/-- Model of `core/indicators.py calculate_rsi(series, period=14)`:
Wilder-style rolling average gain/loss, with the denominator guarded as
`rs = gain / (loss + 1e-9)` and `rsi = 100 - 100 / (1 + rs)`. -/
def calculate_rsi (series : OSeries) (period : ℕ := 14) : OSeries := fun i =>
  let delta := sdiff series
  let gain := rollingMean period (whereGtZero delta)
  let loss := rollingMean period (negWhereLtZero delta)
  let rs := odiv (gain i) (oadd (loss i) (some eps))
  osub (some 100) (odiv (some 100) (oadd (some 1) rs))

/-- Model of `core/scoring.py rsi(series, period=14)`: textually the same
formula as `core/indicators.py calculate_rsi`, including the `1e-9`
guard. -/
def scoring_rsi (series : OSeries) (period : ℕ := 14) : OSeries := fun i =>
  let delta := sdiff series
  let gain := rollingMean period (whereGtZero delta)
  let loss := rollingMean period (negWhereLtZero delta)
  let rs := odiv (gain i) (oadd (loss i) (some eps))
  osub (some 100) (odiv (some 100) (oadd (some 1) rs))

/-- Model of `scripts/smart_trailing_stop.py calculate_rsi(data, period=14)`:
the same rolling averages but with an UNGUARDED quotient `rs = gain / loss`
(no epsilon), so a window with zero average loss produces a non-finite
`rs`. -/
def smart_calculate_rsi (data : OSeries) (period : ℕ := 14) : OSeries := fun i =>
  let delta := sdiff data
  let gain := rollingMean period (whereGtZero delta)
  let loss := rollingMean period (negWhereLtZero delta)
  let rs := odiv (gain i) (loss i)
  osub (some 100) (odiv (some 100) (oadd (some 1) rs))

/-- The sign function `np.sign` on a finite float. -/
def npsign (x : ℚ) : ℚ := if 0 < x then 1 else if x < 0 then -1 else 0

/-- Per-bar contribution of `core/indicators.py calculate_obv`:
`(np.sign(close.diff()) * volume).fillna(0)`.  The first bar's diff is NaN,
`np.sign(NaN)` is NaN, and `fillna(0)` turns it into 0; an unchanged close
contributes `sign(0) * volume = 0`. -/
def obvContrib (close volume : ℕ → ℚ) : ℕ → ℚ
  | 0 => 0
  | j + 1 => npsign (close (j + 1) - close j) * volume (j + 1)

/-- Model of `core/indicators.py calculate_obv(df)` at index `i`:
the cumulative sum of the signed-volume contributions. -/
def calculate_obv (close volume : ℕ → ℚ) (i : ℕ) : ℚ :=
  ∑ j ∈ Finset.range (i + 1), obvContrib close volume j

/-- Per-bar contribution of `scripts/smart_trailing_stop.py calculate_obv`:
`volume * (~close.diff().le(0) * 2 - 1)`.  The first bar's diff is NaN and
`NaN.le(0)` is `False`, so the factor is `(~False)*2 - 1 = +1`; an
unchanged close has `diff.le(0) = True`, giving factor `-1`. -/
def smartObvContrib (close volume : ℕ → ℚ) : ℕ → ℚ
  | 0 => volume 0
  | j + 1 => volume (j + 1) * (if close (j + 1) - close j ≤ 0 then -1 else 1)

/-- Model of `scripts/smart_trailing_stop.py calculate_obv(df)` at index
`i`: the cumulative sum of its contributions. -/
def smart_calculate_obv (close volume : ℕ → ℚ) (i : ℕ) : ℚ :=
  ∑ j ∈ Finset.range (i + 1), smartObvContrib close volume j

/-- Model of `core/indicators.py calculate_volume_ratio(df, period=20)` on a
volume column of length `n`: `vol_current / vol_avg if vol_avg > 0 else 1.0`,
where `vol_avg` is the last value of the rolling mean (NaN while the window
is unfilled, and `NaN > 0` is `False`). -/
def calculate_volume_ratio (volume : ℕ → ℚ) (n : ℕ) (period : ℕ := 20) :
    Option ℚ :=
  let vol_avg := rollingMean period (liftSeries volume) (n - 1)
  let vol_current := volume (n - 1)
  if ogtC vol_avg 0 then odiv (some vol_current) vol_avg else some 1

/-- Model of the volume-ratio expression of
`core/timeframe_analyzer.py TimeframeAnalyzer.analyze_timeframe`
(line 150): `volume.iloc[-1] / volume_sma.iloc[-1] if
volume_sma.iloc[-1] > 0 else 1` with `volume_sma = volume.rolling(20).mean()`. -/
def analyzeTimeframeVolumeRatio (volume : ℕ → ℚ) (n : ℕ) : Option ℚ :=
  let volume_sma := rollingMean 20 (liftSeries volume) (n - 1)
  if ogtC volume_sma 0 then odiv (some (volume (n - 1))) volume_sma else some 1

/-- Position side, the result of `side.upper()` in the Python sources. -/
inductive Side
  | LONG
  | SHORT
deriving DecidableEq, Repr

/-- Python `int(x)` on a float: truncation toward zero. -/
def pyint (q : ℚ) : ℤ := if 0 ≤ q then ⌊q⌋ else ⌈q⌉

/-- The constructor parameters of `core/risk_manager.py RiskManager`. -/
structure RiskManager where
  account_balance : ℚ
  max_risk_per_trade_pct : ℚ := 2
  max_account_risk_pct : ℚ := 10
  min_risk_reward_ratio : ℚ := 2
deriving Repr

/-- Result of `RiskManager.calculate_position_size`: the invalid branch
returns only an error message and `valid = False`; the valid branch carries
every sizing field of the returned dict. -/
inductive PositionSizeResult
  | invalid (error : String)
  | valid (contracts : ℤ) (notional_value required_margin margin_pct
      stop_loss_pct risk_dollars risk_pct : ℚ) (leverage : ℤ)
      (entry_price stop_loss_price : ℚ) (side : Side)
deriving DecidableEq, Repr

/-- Model of `core/risk_manager.py RiskManager.calculate_position_size`.
The early return fires when the risk per contract is not positive; the
valid branch performs the margin-buffer adjustment before reporting. -/
def calculate_position_size (rm : RiskManager) (entry_price stop_loss_price : ℚ)
    (leverage : ℤ := 10) (side : Side := .LONG) : PositionSizeResult :=
  let risk_per_contract : ℚ :=
    match side with
    | .LONG => entry_price - stop_loss_price
    | .SHORT => stop_loss_price - entry_price
  if risk_per_contract ≤ 0 then
    .invalid "Invalid stop loss - must be below entry for LONG, above for SHORT"
  else
    let stop_loss_pct := |risk_per_contract / entry_price| * 100
    let max_risk_dollars := rm.account_balance * (rm.max_risk_per_trade_pct / 100)
    let position_size := max_risk_dollars / risk_per_contract
    let notional_value := position_size * entry_price
    let required_margin := notional_value / (leverage : ℚ)
    let adjusted :=
      if rm.account_balance * (9 / 10) < required_margin then
        let max_margin := rm.account_balance * (9 / 10)
        let notional_value := max_margin * (leverage : ℚ)
        (notional_value / entry_price, notional_value, max_margin)
      else (position_size, notional_value, required_margin)
    let position_size := adjusted.1
    let notional_value := adjusted.2.1
    let required_margin := adjusted.2.2
    let actual_risk_dollars := position_size * risk_per_contract
    let actual_risk_pct := actual_risk_dollars / rm.account_balance * 100
    let position_pct := required_margin / rm.account_balance * 100
    .valid (pyint position_size) notional_value required_margin position_pct
      stop_loss_pct actual_risk_dollars actual_risk_pct leverage
      entry_price stop_loss_price side

/-- One take-profit target of `RiskManager.calculate_take_profits`. -/
structure TPTarget where
  level : ℕ
  price : ℚ
  rr_ratio : ℚ
  profit_pct : ℚ
  allocation_pct : ℚ
deriving DecidableEq, Repr

/-- Model of `core/risk_manager.py RiskManager.calculate_take_profits`:
targets at `rr_ratio = i * 1.5` for `i = 1..num_targets`
(the source comments the values as 1.5R, 3R, 4.5R). -/
def calculate_take_profits (entry_price stop_loss_price : ℚ)
    (side : Side := .LONG) (num_targets : ℕ := 3) : List TPTarget :=
  let risk_distance : ℚ :=
    match side with
    | .LONG => entry_price - stop_loss_price
    | .SHORT => stop_loss_price - entry_price
  (List.range num_targets).map fun (i0 : ℕ) =>
    let i : ℕ := i0 + 1
    let rr_ratio : ℚ := (i : ℚ) * (3 / 2)
    let tp_price : ℚ :=
      match side with
      | .LONG => entry_price + risk_distance * rr_ratio
      | .SHORT => entry_price - risk_distance * rr_ratio
    let profit_pct : ℚ :=
      match side with
      | .LONG => (tp_price - entry_price) / entry_price * 100
      | .SHORT => (entry_price - tp_price) / entry_price * 100
    { level := i, price := tp_price, rr_ratio := rr_ratio,
      profit_pct := profit_pct,
      allocation_pct := if i < num_targets then 3333 / 100 else 34 }

/-- The trend label computed by `get_market_indicators`:
`'UP' if ema20 > ema50 else 'DOWN'`. -/
inductive TrendDir
  | UP
  | DOWN
deriving DecidableEq, Repr

/-- The indicator record consumed by `calculate_smart_stop_distance`
(the fields of the dict built by `get_market_indicators` that the stop
calculation reads). -/
structure SmartIndicators where
  price : ℚ
  rsi : ℚ
  macd_hist : ℚ
  stoch_k : ℚ
  adx : ℚ
  vwap : ℚ
  obv_slope : ℚ
  trend : TrendDir
deriving DecidableEq, Repr

/-- Model of `scripts/smart_trailing_stop.py calculate_smart_stop_distance`:
base multiplier 2.0, ±0.5 ADX adjustment, per-side warning deductions, and
a final clamp to [0.8, 3.5].  Each conditional `multiplier += x` /
`multiplier -= x` statement of the source is written as adding or
subtracting `if condition then x else 0` (an `if/elif` pair becomes one
nested conditional amount).  The `reasons` display list of the source is
presentation-only and omitted. -/
def calculate_smart_stop_distance (indicators : SmartIndicators)
    (side : Side) : ℚ :=
  let multiplier : ℚ := 2
  -- 1. ADX - trend strength (strong trend = wider stop)
  let multiplier := multiplier +
    (if 30 < indicators.adx then 1 / 2
     else if indicators.adx < 20 then -(1 / 2) else 0)
  let multiplier :=
    match side with
    | .LONG =>
      -- 2. RSI warnings
      let m := multiplier -
        (if 70 < indicators.rsi then 1 / 2
         else if 60 < indicators.rsi then 3 / 10 else 0)
      -- 3. MACD bearish crossover warning
      let m := m -
        (if indicators.macd_hist < 0 then 2 / 5
         else if |indicators.macd_hist| < 1 / 20 then 1 / 5 else 0)
      -- 4. Stochastic RSI overbought
      let m := m - (if 80 < indicators.stoch_k then 3 / 10 else 0)
      -- 5. Price vs VWAP (below VWAP = bearish)
      let m := m - (if indicators.price < indicators.vwap then 2 / 5 else 0)
      -- 6. OBV divergence
      let m := m - (if indicators.obv_slope < 0 then 3 / 10 else 0)
      -- 7. Trend reversal
      m - (if indicators.trend = .DOWN then 3 / 5 else 0)
    | .SHORT =>
      -- 2. RSI warnings
      let m := multiplier -
        (if indicators.rsi < 30 then 1 / 2
         else if indicators.rsi < 40 then 3 / 10 else 0)
      -- 3. MACD bullish crossover warning
      let m := m -
        (if 0 < indicators.macd_hist then 2 / 5
         else if |indicators.macd_hist| < 1 / 20 then 1 / 5 else 0)
      -- 4. Stochastic RSI oversold (bounce risk)
      let m := m - (if indicators.stoch_k < 20 then 3 / 10 else 0)
      -- 5. Price vs VWAP (above VWAP = bullish)
      let m := m - (if indicators.vwap < indicators.price then 2 / 5 else 0)
      -- 6. OBV divergence
      let m := m - (if 0 < indicators.obv_slope then 3 / 10 else 0)
      -- 7. Trend reversal
      m - (if indicators.trend = .UP then 3 / 5 else 0)
  -- Keep multiplier in safe range
  max (4 / 5) (min (7 / 2) multiplier)

/-- The ADX adjustment applied to the base multiplier (spec-side view used
to state the structure of `calculate_smart_stop_distance`). -/
def adxAdjustment (adx : ℚ) : ℚ :=
  if 30 < adx then 1 / 2 else if adx < 20 then -(1 / 2) else 0

/-- The total of the per-side warning deductions of
`calculate_smart_stop_distance` (each warning subtracts a fixed amount). -/
def warningDeductions (indicators : SmartIndicators) (side : Side) : ℚ :=
  match side with
  | .LONG =>
    (if 70 < indicators.rsi then 1 / 2
     else if 60 < indicators.rsi then 3 / 10 else 0) +
    (if indicators.macd_hist < 0 then 2 / 5
     else if |indicators.macd_hist| < 1 / 20 then 1 / 5 else 0) +
    (if 80 < indicators.stoch_k then 3 / 10 else 0) +
    (if indicators.price < indicators.vwap then 2 / 5 else 0) +
    (if indicators.obv_slope < 0 then 3 / 10 else 0) +
    (if indicators.trend = .DOWN then 3 / 5 else 0)
  | .SHORT =>
    (if indicators.rsi < 30 then 1 / 2
     else if indicators.rsi < 40 then 3 / 10 else 0) +
    (if 0 < indicators.macd_hist then 2 / 5
     else if |indicators.macd_hist| < 1 / 20 then 1 / 5 else 0) +
    (if indicators.stoch_k < 20 then 3 / 10 else 0) +
    (if indicators.vwap < indicators.price then 2 / 5 else 0) +
    (if 0 < indicators.obv_slope then 3 / 10 else 0) +
    (if indicators.trend = .UP then 3 / 5 else 0)

/-- The in-memory trailing state of `run_smart_trailing_stop`: the current
stop price and the most favorable price seen (highest for LONG, lowest
for SHORT). -/
structure TrailState where
  stop_price : ℚ
  extreme_price : ℚ
deriving DecidableEq, Repr

/-- One poll iteration of the LONG branch of the
`run_smart_trailing_stop` loop (lines 573-578): if the price makes a new
high, a candidate stop `highest_price - stop_distance` is computed, and the
stop is replaced only when the candidate is strictly higher. -/
def trailStepLong (st : TrailState) (price stop_distance : ℚ) : TrailState :=
  if st.extreme_price < price then
    let highest_price := price
    let new_stop := highest_price - stop_distance
    { extreme_price := highest_price,
      stop_price := if st.stop_price < new_stop then new_stop else st.stop_price }
  else st

/-- One poll iteration of the SHORT branch of the
`run_smart_trailing_stop` loop (lines 594-598): symmetric, the stop is
replaced only when the candidate `lowest_price + stop_distance` is strictly
lower. -/
def trailStepShort (st : TrailState) (price stop_distance : ℚ) : TrailState :=
  if price < st.extreme_price then
    let lowest_price := price
    let new_stop := lowest_price + stop_distance
    { extreme_price := lowest_price,
      stop_price := if new_stop < st.stop_price then new_stop else st.stop_price }
  else st

/-- Run successive poll iterations over a list of observed
(price, stop_distance) pairs. -/
def trailRunLong (st : TrailState) (polls : List (ℚ × ℚ)) : TrailState :=
  polls.foldl (fun s pd => trailStepLong s pd.1 pd.2) st

/-- Run successive SHORT poll iterations over a list of observed
(price, stop_distance) pairs. -/
def trailRunShort (st : TrailState) (polls : List (ℚ × ℚ)) : TrailState :=
  polls.foldl (fun s pd => trailStepShort s pd.1 pd.2) st

/-- The configuration data `src/config.py Config.validate` reads: the
three API credentials, the `.env` presence flag, and the numeric
settings. -/
structure Config where
  envFileExists : Bool
  KUCOIN_API_KEY : String
  KUCOIN_API_SECRET : String
  KUCOIN_API_PASSPHRASE : String
  DEFAULT_LEVERAGE : ℤ
  MAX_LEVERAGE : ℤ
  DEFAULT_RISK_PERCENT : ℚ
  MIN_POSITION_SIZE : ℚ
deriving DecidableEq, Repr

/-- Model of `src/config.py Config.validate`: collect the error messages in
source order and return `(errors == [], errors)`.  Interpolated numbers in
the leverage message are elided from the model string. -/
def Config.validate (cfg : Config) : Bool × List String :=
  let errors : List String :=
    (if cfg.envFileExists then []
     else [".env file not found. Copy .env.example to .env and configure it."]) ++
    (if cfg.KUCOIN_API_KEY = "" then ["KUCOIN_API_KEY not set in .env"]
     else if cfg.KUCOIN_API_KEY = "your_api_key_here" then
       ["KUCOIN_API_KEY is still set to placeholder value"]
     else []) ++
    (if cfg.KUCOIN_API_SECRET = "" then ["KUCOIN_API_SECRET not set in .env"]
     else if cfg.KUCOIN_API_SECRET = "your_api_secret_here" then
       ["KUCOIN_API_SECRET is still set to placeholder value"]
     else []) ++
    (if cfg.KUCOIN_API_PASSPHRASE = "" then ["KUCOIN_API_PASSPHRASE not set in .env"]
     else if cfg.KUCOIN_API_PASSPHRASE = "your_api_passphrase_here" then
       ["KUCOIN_API_PASSPHRASE is still set to placeholder value"]
     else []) ++
    (if cfg.DEFAULT_LEVERAGE < 1 ∨ cfg.MAX_LEVERAGE < cfg.DEFAULT_LEVERAGE then
       ["DEFAULT_LEVERAGE must be between 1 and MAX_LEVERAGE"]
     else []) ++
    (if cfg.DEFAULT_RISK_PERCENT ≤ 0 ∨ 100 < cfg.DEFAULT_RISK_PERCENT then
       ["DEFAULT_RISK_PERCENT must be between 0 and 100"]
     else []) ++
    (if cfg.MIN_POSITION_SIZE ≤ 0 then
       ["MIN_POSITION_SIZE must be greater than 0"]
     else [])
  (errors.length = 0, errors)

/-- Absolute value on a possibly-NaN value. -/
def oabs : Option ℚ → Option ℚ
  | some a => some |a|
  | none => none

/-- Model of `core/scoring.py normalize(value, min_v, max_v)`:
`np.clip((value - min_v) / (max_v - min_v + 1e-9), 0, 1) * 100`; a NaN
input clips to NaN. -/
def onormalize (value : Option ℚ) (min_v max_v : ℚ) : Option ℚ :=
  value.map fun v => min 1 (max 0 ((v - min_v) / (max_v - min_v + eps))) * 100

/-- Model of `series.ewm(span=period, adjust=False).mean()` on a finite
column: smoothing factor `2/(span+1)`, seeded from the first value. -/
def ewmMean (span : ℕ) (s : ℕ → ℚ) : ℕ → ℚ
  | 0 => s 0
  | i + 1 =>
    let α : ℚ := 2 / ((span : ℚ) + 1)
    α * s (i + 1) + (1 - α) * ewmMean span s i

/-- Model of `np.maximum(high.diff(), 0)`: the first diff is NaN and
`np.maximum(NaN, 0)` is NaN. -/
def maxDiffZero (s : ℕ → ℚ) : OSeries := fun i =>
  match i with
  | 0 => none
  | j + 1 => some (max (s (j + 1) - s j) 0)

/-- Model of `np.maximum(-low.diff(), 0)`. -/
def maxNegDiffZero (s : ℕ → ℚ) : OSeries := fun i =>
  match i with
  | 0 => none
  | j + 1 => some (max (s j - s (j + 1)) 0)

/-- Model of `s.rolling(window=p).std()` on a finite column: the square
root of the sample variance (pandas default `ddof=1`).  Square roots of
rationals are irrational in general, so the square-root function is a
parameter; every theorem below holds for an arbitrary `sqrtFn`. -/
def rollingStd (sqrtFn : ℚ → ℚ) (p : ℕ) (s : ℕ → ℚ) : OSeries := fun i =>
  if i + 1 < p then none
  else
    let mean : ℚ := (∑ j ∈ Finset.range p, s (i + 1 - p + j)) / (p : ℚ)
    some (sqrtFn ((∑ j ∈ Finset.range p, (s (i + 1 - p + j) - mean) ^ 2) /
      ((p : ℚ) - 1)))

/-- Model of `s.rolling(window=p).max()` on a finite column. -/
def rollingMax (p : ℕ) (s : ℕ → ℚ) : OSeries := fun i =>
  if i + 1 < p then none
  else some (((List.range p).map fun j => s (i + 1 - p + j)).foldr max (s (i + 1 - p)))

/-- Model of `s.rolling(window=p).min()` on a finite column. -/
def rollingMin (p : ℕ) (s : ℕ → ℚ) : OSeries := fun i =>
  if i + 1 < p then none
  else some (((List.range p).map fun j => s (i + 1 - p + j)).foldr min (s (i + 1 - p)))

/-- Python `min(a, x)` when `x` may be NaN: comparisons against NaN are
`False`, so `min(a, NaN)` returns `a`. -/
def pymin (a : ℚ) : Option ℚ → ℚ
  | some v => min a v
  | none => a

/-- Round a rational to two decimal places, modelling Python
`round(x, 2)` (Python rounds half-cent ties to even; the two agree away
from exact ties and both stay inside any interval with endpoints that are
multiples of 1/100, which is all the claims need). -/
def round2 (q : ℚ) : ℚ := (round (q * 100) : ℚ) / 100

/-- The signal label of `score_asset`. -/
inductive ScoreSignal
  | LONG
  | SHORT
  | NEUTRAL
deriving DecidableEq, Repr

/-- The dict returned by `core/scoring.py score_asset` (component scores
may be NaN when the input window is too short, hence `Option`). -/
structure ScoreResult where
  long_score : ℚ
  short_score : ℚ
  trend_score : Option ℚ
  momentum_score : Option ℚ
  volatility_score : Option ℚ
  volume_score : Option ℚ
  signal : ScoreSignal
deriving DecidableEq, Repr

/-- Model of `core/scoring.py score_asset(df)` over a candle dataframe of
`n` bars with columns `close/high/low/volume`.  `sqrtFn` stands for the
real square root used by the rolling standard deviation. -/
def score_asset (sqrtFn : ℚ → ℚ) (close high low volume : ℕ → ℚ) (n : ℕ) :
    ScoreResult :=
  let structure_score : ℚ := 50
  -- TREND FACTOR
  let ema20 := ewmMean 20 close
  let ema50 := ewmMean 50 close
  let slope_short : Option ℚ :=
    if n < 2 then none else some (ema20 (n - 1) - ema20 (n - 2))
  let slope_mid : Option ℚ :=
    if n < 2 then none else some (ema50 (n - 1) - ema50 (n - 2))
  let slope_score := onormalize (oadd slope_short slope_mid) (-(2 / 100)) (2 / 100)
  let tr : ℕ → ℚ := fun i => high i - low i
  let dm_up := maxDiffZero high
  let dm_down := maxNegDiffZero low
  let tr14 := rollingSum 14 (liftSeries tr)
  let plus_di : Option ℚ :=
    omul (odiv (rollingSum 14 dm_up (n - 1)) (oadd (tr14 (n - 1)) (some eps)))
      (some 100)
  let minus_di : Option ℚ :=
    omul (odiv (rollingSum 14 dm_down (n - 1)) (oadd (tr14 (n - 1)) (some eps)))
      (some 100)
  let adx_raw := oabs (osub plus_di minus_di)
  let adx_score := onormalize adx_raw 0 40
  let trend_score := oadd (omul (some (4 / 10)) slope_score)
    (omul (some (6 / 10)) adx_score)
  -- MOMENTUM
  let roc : Option ℚ :=
    omul (odiv (some (close (n - 1) - close (n - 10))) (some (close (n - 10))))
      (some 100)
  let macd_line : ℕ → ℚ := fun i => ewmMean 12 close i - ewmMean 26 close i
  let macd_hist : ℕ → ℚ := fun i => macd_line i - ewmMean 9 macd_line i
  let momentum_score := oadd (omul (onormalize roc (-5) 5) (some (4 / 10)))
    (omul (onormalize (some (macd_hist (n - 1))) (-1) 1) (some (6 / 10)))
  -- VOLATILITY
  let atr := rollingMean 14 (liftSeries tr)
  let atr_pct := odiv (atr (n - 1)) (some (close (n - 1)))
  let volatility_score := onormalize atr_pct (5 / 1000) (4 / 100)
  -- VOLUME
  let obv : ℕ → ℚ := calculate_obv close volume
  let obv_slope : Option ℚ :=
    if n < 2 then none else some (obv (n - 1) - obv (n - 2))
  let vol_z : Option ℚ :=
    odiv (osub (some (volume (n - 1))) (rollingMean 50 (liftSeries volume) (n - 1)))
      (oadd (rollingStd sqrtFn 50 volume (n - 1)) (some eps))
  let volume_score := oadd (omul (onormalize obv_slope (-1000000) 1000000)
    (some (5 / 10))) (omul (onormalize vol_z (-3) 3) (some (5 / 10)))
  -- MEAN REVERSION / REVERSAL
  let r : Option ℚ := scoring_rsi (liftSeries close) 14 (n - 1)
  let rev_long : ℚ := if oltC r 30 then 100 else 0
  let rev_short : ℚ := if ogtC r 70 then 100 else 0
  let closeMean : ℚ := (∑ j ∈ Finset.range n, close j) / (n : ℚ)
  let _mr_long := oadd (omul (onormalize (osub (some 70) r) 0 40) (some (6 / 10)))
    (omul (onormalize (odiv (some (closeMean - close (n - 1)))
      (some (close (n - 1)))) (-(3 / 100)) (3 / 100)) (some (4 / 10)))
  let _mr_short := oadd (omul (onormalize (osub r (some 30)) 0 40) (some (6 / 10)))
    (omul (onormalize (odiv (some (close (n - 1) - closeMean))
      (some (close (n - 1)))) (-(3 / 100)) (3 / 100)) (some (4 / 10)))
  -- BREAKOUT
  let _donchian_high := rollingMax 20 high (n - 1)
  let _donchian_low := rollingMin 20 low (n - 1)
  -- Normalize final scores to 0-100
  let long_score_raw : Option ℚ :=
    oadd (oadd (oadd (oadd (oadd (omul (some (30 / 100)) trend_score)
      (omul (some (20 / 100)) momentum_score))
      (omul (some (10 / 100)) (osub (some 100) volatility_score)))
      (omul (some (15 / 100)) volume_score))
      (some ((15 / 100) * structure_score)))
      (some ((10 / 100) * rev_long))
  let short_score_raw : Option ℚ :=
    oadd (oadd (oadd (oadd (oadd (omul (some (30 / 100)) (osub (some 100) trend_score))
      (omul (some (20 / 100)) (osub (some 100) momentum_score)))
      (omul (some (10 / 100)) volatility_score))
      (omul (some (15 / 100)) volume_score))
      (some ((15 / 100) * (100 - structure_score))))
      (some ((10 / 100) * rev_short))
  let long_score : ℚ := max 0 (pymin 100 long_score_raw)
  let short_score : ℚ := max 0 (pymin 100 short_score_raw)
  let signal : ScoreSignal :=
    if 70 ≤ long_score ∧ 15 ≤ long_score - short_score then .LONG
    else if 70 ≤ short_score ∧ 15 ≤ short_score - long_score then .SHORT
    else .NEUTRAL
  { long_score := round2 long_score,
    short_score := round2 short_score,
    trend_score := trend_score.map round2,
    momentum_score := momentum_score.map round2,
    volatility_score := volatility_score.map round2,
    volume_score := volume_score.map round2,
    signal := signal }

/-- Timeframes of `core/timeframe_analyzer.py TimeframeAnalyzer.TIMEFRAMES`. -/
inductive TF
  | d1
  | h4
  | h1
  | m15
deriving DecidableEq, Repr

/-- The per-timeframe weight of `TimeframeAnalyzer.TIMEFRAMES`. -/
def tfWeight : TF → ℚ
  | .d1 => 40
  | .h4 => 30
  | .h1 => 20
  | .m15 => 10

/-- Trend label of `TimeframeAnalyzer.analyze_timeframe`. -/
inductive TATrend
  | BULLISH
  | BEARISH
  | NEUTRAL
deriving DecidableEq, Repr

/-- OBV trend label of `TimeframeAnalyzer.analyze_timeframe`. -/
inductive ObvTrend
  | RISING
  | FALLING
deriving DecidableEq, Repr

/-- The fields of an `analyze_timeframe` record that
`calculate_confluence_score` reads. -/
structure TfAnalysis where
  valid : Bool
  trend : TATrend
  above_all_emas : Bool
  below_all_emas : Bool
  rsi_bullish_range : Bool
  rsi_bearish_range : Bool
  rsi_overbought : Bool
  macd_bullish : Bool
  macd_crossover : Bool
  stoch_overbought : Bool
  stoch_oversold : Bool
  strong_trend : Bool
  very_strong_trend : Bool
  volume_ratio : ℚ
  obv_trend : ObvTrend
  above_vwap : Bool
deriving DecidableEq, Repr

/-- The per-timeframe raw score (`tf_score`) accumulated by
`calculate_confluence_score`, written as the sum of its `+=` increments. -/
def tfScore (a : TfAnalysis) (direction : Side) : ℚ :=
  match direction with
  | .LONG =>
    (if a.trend = .BULLISH then 30 else if a.trend = .NEUTRAL then 10 else 0) +
    (if a.above_all_emas then 10 else 0) +
    (if a.rsi_bullish_range then 10 else 0) +
    (if a.macd_bullish then 10 else 0) +
    (if a.macd_crossover then 5 else 0) +
    (if ¬a.stoch_overbought then 5 else 0) +
    (if a.strong_trend then 10 else 0) +
    (if a.very_strong_trend then 5 else 0) +
    (if 12 / 10 < a.volume_ratio then 7 else 0) +
    (if a.obv_trend = .RISING then 5 else 0) +
    (if a.above_vwap then 3 else 0)
  | .SHORT =>
    (if a.trend = .BEARISH then 30 else if a.trend = .NEUTRAL then 10 else 0) +
    (if a.below_all_emas then 10 else 0) +
    (if a.rsi_bearish_range then 10 else 0) +
    (if ¬a.macd_bullish then 10 else 0) +
    (if ¬a.stoch_oversold then 5 else 0) +
    (if a.rsi_overbought then 5 else 0) +
    (if a.strong_trend then 10 else 0) +
    (if a.very_strong_trend then 5 else 0) +
    (if 12 / 10 < a.volume_ratio then 7 else 0) +
    (if a.obv_trend = .FALLING then 5 else 0) +
    (if ¬a.above_vwap then 3 else 0)

/-- Signal label of `calculate_confluence_score`
(`STRONG_<dir> / <dir> / WEAK_<dir> / NO_SIGNAL`). -/
inductive ConfluenceSignal
  | STRONG (direction : Side)
  | PLAIN (direction : Side)
  | WEAK (direction : Side)
  | NO_SIGNAL
deriving DecidableEq, Repr

/-- The result of `calculate_confluence_score` (the display-only
`timeframe_details` list and timestamp are omitted). -/
structure ConfluenceResult where
  score : ℚ
  signal : ConfluenceSignal
  direction : Side
deriving DecidableEq, Repr

/-- Model of `core/timeframe_analyzer.py
TimeframeAnalyzer.calculate_confluence_score`: invalid analyses are
skipped, each valid timeframe contributes `(tf_score / 100) * weight` to
`total_score` and `weight` to `max_score`, and the final score is
`total_score / max_score * 100` (0 when nothing contributed), rounded to
two decimals. -/
def calculate_confluence_score (analyses : List (TF × TfAnalysis))
    (direction : Side := .LONG) : ConfluenceResult :=
  let acc := analyses.foldl
    (fun (acc : ℚ × ℚ) ta =>
      if ¬ta.2.valid then acc
      else
        let tf_weight := tfWeight ta.1
        let tf_max : ℚ := 100
        let weighted_score := tfScore ta.2 direction / tf_max * tf_weight
        (acc.1 + weighted_score, acc.2 + tf_weight))
    (0, 0)
  let total_score := acc.1
  let max_score := acc.2
  let final_score : ℚ := if 0 < max_score then total_score / max_score * 100 else 0
  let signal : ConfluenceSignal :=
    if 75 ≤ final_score then .STRONG direction
    else if 60 ≤ final_score then .PLAIN direction
    else if 50 ≤ final_score then .WEAK direction
    else .NO_SIGNAL
  { score := round2 final_score, signal := signal, direction := direction }

/-! ### Helper lemmas -/

/-- One LONG poll never lowers the stop. -/
theorem trailStepLong_stop_le (st : TrailState) (price d : ℚ) :
    st.stop_price ≤ (trailStepLong st price d).stop_price := by
  simp only [trailStepLong]
  split
  · dsimp only
    split
    · next h => exact le_of_lt h
    · exact le_rfl
  · exact le_rfl

/-- One SHORT poll never raises the stop. -/
theorem trailStepShort_stop_ge (st : TrailState) (price d : ℚ) :
    (trailStepShort st price d).stop_price ≤ st.stop_price := by
  simp only [trailStepShort]
  split
  · dsimp only
    split
    · next h => exact le_of_lt h
    · exact le_rfl
  · exact le_rfl

/-- Iterated LONG polls never lower the stop. -/
theorem trailRunLong_stop_le (st : TrailState) (polls : List (ℚ × ℚ)) :
    st.stop_price ≤ (trailRunLong st polls).stop_price := by
  induction polls generalizing st with
  | nil => exact le_rfl
  | cons pd rest ih =>
    calc st.stop_price ≤ (trailStepLong st pd.1 pd.2).stop_price :=
          trailStepLong_stop_le st pd.1 pd.2
      _ ≤ (trailRunLong (trailStepLong st pd.1 pd.2) rest).stop_price := ih _

/-- Iterated SHORT polls never raise the stop. -/
theorem trailRunShort_stop_ge (st : TrailState) (polls : List (ℚ × ℚ)) :
    (trailRunShort st polls).stop_price ≤ st.stop_price := by
  induction polls generalizing st with
  | nil => exact le_rfl
  | cons pd rest ih =>
    calc (trailRunShort (trailStepShort st pd.1 pd.2) rest).stop_price
        ≤ (trailStepShort st pd.1 pd.2).stop_price := ih _
      _ ≤ st.stop_price := trailStepShort_stop_ge st pd.1 pd.2

/-! ### C1 -/

/-- C1: in the smart trailing-stop loop, across any sequence of poll
iterations with arbitrary recomputed prices and ATR-based stop distances,
the stop price of a LONG position never decreases and the stop price of a
SHORT position never increases: the stop moves only in the favorable
direction. -/
theorem smart_trailing_stop_monotone (st : TrailState) (polls : List (ℚ × ℚ)) :
    st.stop_price ≤ (trailRunLong st polls).stop_price ∧
    (trailRunShort st polls).stop_price ≤ st.stop_price :=
  ⟨trailRunLong_stop_le st polls, trailRunShort_stop_ge st polls⟩

/-! ### C4 -/

/-- C4: the ATR multiplier returned by `calculate_smart_stop_distance`
always lies in [0.8, 3.5]; moreover it is exactly the clamp of
`2.0 + adxAdjustment - warningDeductions`, i.e. the base 2.0 plus +0.5
when ADX > 30 (-0.5 when ADX < 20), minus a nonnegative total of
fixed per-warning deductions, clamped last. -/
theorem calculate_smart_stop_distance_spec (ind : SmartIndicators) (side : Side) :
    (4 / 5 ≤ calculate_smart_stop_distance ind side ∧
     calculate_smart_stop_distance ind side ≤ 7 / 2) ∧
    calculate_smart_stop_distance ind side =
      max (4 / 5) (min (7 / 2)
        (2 + adxAdjustment ind.adx - warningDeductions ind side)) ∧
    0 ≤ warningDeductions ind side := by
  have heq : calculate_smart_stop_distance ind side =
      max (4 / 5) (min (7 / 2)
        (2 + adxAdjustment ind.adx - warningDeductions ind side)) := by
    cases side <;>
      · simp only [calculate_smart_stop_distance, adxAdjustment, warningDeductions]
        congr 1
        congr 1
        ring
  have hded : 0 ≤ warningDeductions ind side := by
    cases side <;>
      · simp only [warningDeductions]
        repeat' apply add_nonneg
        all_goals split_ifs <;> norm_num
  refine ⟨⟨?_, ?_⟩, heq, hded⟩
  · rw [heq]; exact le_max_left _ _
  · rw [heq]
    exact max_le (by norm_num) (min_le_left _ _)

/-! ### C10 -/

/-- C10: when the stop is on the wrong side of the entry (stop at or above
entry for LONG, stop at or below entry for SHORT, i.e. nonpositive risk
per contract), `calculate_position_size` returns the invalid result: it
carries `valid = False` and only an error message, with no contracts,
margin, or risk figures. -/
theorem calculate_position_size_invalid (rm : RiskManager)
    (entry_price stop_loss_price : ℚ) (leverage : ℤ) (side : Side)
    (h : match side with
         | .LONG => entry_price ≤ stop_loss_price
         | .SHORT => stop_loss_price ≤ entry_price) :
    calculate_position_size rm entry_price stop_loss_price leverage side =
      .invalid "Invalid stop loss - must be below entry for LONG, above for SHORT" := by
  cases side <;>
    · simp only [calculate_position_size]
      rw [if_pos (by dsimp only at h ⊢; linarith)]

/-- Witness for C10 at a concrete wrong-sided stop (LONG with stop above
entry). -/
theorem calculate_position_size_invalid_witness :
    calculate_position_size ⟨1000, 2, 10, 2⟩ 100 105 10 .LONG =
      .invalid "Invalid stop loss - must be below entry for LONG, above for SHORT" :=
  calculate_position_size_invalid ⟨1000, 2, 10, 2⟩ 100 105 10 .LONG (by norm_num)

/-- `seqOption` on a window of identical defined values. -/
theorem seqOption_replicate (p : ℕ) (v : ℚ) :
    seqOption (List.replicate p (some v)) = some (List.replicate p v) := by
  induction p with
  | zero => rfl
  | succ n ih => simp [List.replicate_succ, seqOption, ih]

/-- A full rolling window of a constant series averages to that constant
value (stated with the `p * v / p` shape produced by the model). -/
theorem rollingMean_const (s : OSeries) (p i : ℕ) (v : ℚ) (hp : ¬i + 1 < p)
    (h : ∀ j, j < p → s (i + 1 - p + j) = some v) :
    rollingMean p s i = some ((p : ℚ) * v / p) := by
  unfold rollingMean rollingSum windowAt
  rw [if_neg hp]
  have hwin : ((List.range p).map fun j => s (i + 1 - p + j)) =
      List.replicate p (some v) := by
    rw [List.eq_replicate_iff]
    refine ⟨by simp, ?_⟩
    intro b hb
    rcases List.mem_map.mp hb with ⟨j, hj, rfl⟩
    exact h j (List.mem_range.mp hj)
  rw [hwin, seqOption_replicate]
  simp [List.sum_replicate, nsmul_eq_mul]

/-- If every entry of a window is defined and nonnegative, `seqOption`
succeeds and the window sum is nonnegative. -/
theorem seqOption_nonneg (L : List (Option ℚ))
    (h : ∀ o ∈ L, ∃ w, o = some w ∧ 0 ≤ w) :
    ∃ vals : List ℚ, seqOption L = some vals ∧ 0 ≤ vals.sum := by
  induction L with
  | nil => exact ⟨[], rfl, le_rfl⟩
  | cons o rest ih =>
    obtain ⟨w, hw, hw0⟩ := h o (List.mem_cons_self o rest)
    obtain ⟨vals, hv, hv0⟩ := ih fun x hx => h x (List.mem_cons_of_mem _ hx)
    subst hw
    refine ⟨w :: vals, ?_, ?_⟩
    · simp [seqOption, hv]
    · simpa using add_nonneg hw0 hv0

/-- A full rolling mean of a defined, nonnegative series is defined and
nonnegative. -/
theorem rollingMean_nonneg (s : OSeries) (p i : ℕ) (hp : ¬i + 1 < p)
    (h : ∀ j, j < p → ∃ w, s (i + 1 - p + j) = some w ∧ 0 ≤ w) :
    ∃ m, rollingMean p s i = some m ∧ 0 ≤ m := by
  have hwin : ∀ o ∈ windowAt s p i, ∃ w, o = some w ∧ 0 ≤ w := by
    intro o ho
    rcases List.mem_map.mp ho with ⟨j, hj, rfl⟩
    exact h j (List.mem_range.mp hj)
  obtain ⟨vals, hv, hv0⟩ := seqOption_nonneg (windowAt s p i) hwin
  refine ⟨vals.sum / p, ?_, div_nonneg hv0 (by positivity)⟩
  unfold rollingMean rollingSum
  rw [if_neg hp, hv]
  rfl

/-- The clipped gain series is defined and nonnegative everywhere. -/
theorem whereGtZero_spec (s : OSeries) (j : ℕ) :
    ∃ w, whereGtZero s j = some w ∧ 0 ≤ w := by
  unfold whereGtZero
  cases s j with
  | none => exact ⟨0, rfl, le_rfl⟩
  | some v =>
    by_cases hv : 0 < v
    · exact ⟨v, by simp [hv], le_of_lt hv⟩
    · exact ⟨0, by simp [hv], le_rfl⟩

/-- The clipped loss series is defined and nonnegative everywhere. -/
theorem negWhereLtZero_spec (s : OSeries) (j : ℕ) :
    ∃ w, negWhereLtZero s j = some w ∧ 0 ≤ w := by
  unfold negWhereLtZero
  cases s j with
  | none => exact ⟨0, rfl, le_rfl⟩
  | some v =>
    by_cases hv : v < 0
    · exact ⟨-v, by simp [hv], by linarith⟩
    · exact ⟨0, by simp [hv], le_rfl⟩

/-- The two epsilon-guarded RSI implementations are one and the same
formula. -/
theorem scoring_rsi_eq_calculate_rsi : @scoring_rsi = @calculate_rsi := rfl

/-! ### C2 -/

/-- A constant list, viewed as a series, is constant on every in-range
consecutive difference: its clipped gain series is identically `some 0`. -/
theorem whereGtZero_sdiff_const (l : List ℚ) (c : ℚ) (hconst : ∀ x ∈ l, x = c)
    (k : ℕ) (hk : k < l.length) :
    whereGtZero (sdiff (ofList l)) k = some 0 := by
  unfold whereGtZero sdiff
  cases k with
  | zero => rfl
  | succ j =>
    have hj : j < l.length := Nat.lt_of_succ_lt hk
    have h1 : ofList l (j + 1) = some c := by
      unfold ofList
      rw [List.getElem?_eq_getElem hk]
      exact congrArg some (hconst _ (List.getElem_mem _))
    have h2 : ofList l j = some c := by
      unfold ofList
      rw [List.getElem?_eq_getElem hj]
      exact congrArg some (hconst _ (List.getElem_mem _))
    simp [h1, h2, osub]

/-- The clipped loss series of a constant list is identically `some 0`. -/
theorem negWhereLtZero_sdiff_const (l : List ℚ) (c : ℚ) (hconst : ∀ x ∈ l, x = c)
    (k : ℕ) (hk : k < l.length) :
    negWhereLtZero (sdiff (ofList l)) k = some 0 := by
  unfold negWhereLtZero sdiff
  cases k with
  | zero => rfl
  | succ j =>
    have hj : j < l.length := Nat.lt_of_succ_lt hk
    have h1 : ofList l (j + 1) = some c := by
      unfold ofList
      rw [List.getElem?_eq_getElem hk]
      exact congrArg some (hconst _ (List.getElem_mem _))
    have h2 : ofList l j = some c := by
      unfold ofList
      rw [List.getElem?_eq_getElem hj]
      exact congrArg some (hconst _ (List.getElem_mem _))
    simp [h1, h2, osub]

/-- Core computation for C2: the guarded RSI of a constant series with a
full window is 0. -/
theorem rsi_const_zero_aux (l : List ℚ) (c : ℚ) (hlen : 14 ≤ l.length)
    (hconst : ∀ x ∈ l, x = c) :
    calculate_rsi (ofList l) 14 (l.length - 1) = some 0 := by
  have hnot : ¬l.length - 1 + 1 < 14 := by omega
  have hidx : ∀ j, j < 14 → l.length - 1 + 1 - 14 + j < l.length := by omega
  have hgain : rollingMean 14 (whereGtZero (sdiff (ofList l))) (l.length - 1) =
      some ((14 : ℚ) * 0 / 14) := by
    refine rollingMean_const _ _ _ _ hnot ?_
    intro j hj
    exact whereGtZero_sdiff_const l c hconst _ (hidx j hj)
  have hloss : rollingMean 14 (negWhereLtZero (sdiff (ofList l))) (l.length - 1) =
      some ((14 : ℚ) * 0 / 14) := by
    refine rollingMean_const _ _ _ _ hnot ?_
    intro j hj
    exact negWhereLtZero_sdiff_const l c hconst _ (hidx j hj)
  simp only [calculate_rsi]
  rw [hgain, hloss]
  norm_num [oadd, odiv, osub, eps]

/-- C2 counterexample: on a concrete constant candle series that fills the
rolling window (20 bars at price 100), the RSI computed by
`core/indicators.py calculate_rsi` is 0, not 50: the epsilon guard sends
`rs = 0 / (0 + 1e-9)` to 0 and `RSI = 100 - 100/(1+0) = 0`. -/
theorem rsi_constant_not_fifty :
    calculate_rsi (ofList (List.replicate 20 (100 : ℚ))) 14 19 ≠ some 50 ∧
    calculate_rsi (ofList (List.replicate 20 (100 : ℚ))) 14 19 = some 0 := by
  have h := rsi_const_zero_aux (List.replicate 20 (100 : ℚ)) 100 (by norm_num)
    (fun x hx => List.eq_of_mem_replicate hx)
  simp only [List.length_replicate] at h
  norm_num [h]

/-- C2 (amended): for every constant-price series long enough to fill the
14-bar rolling window, the RSI computed by `calculate_rsi` is 0 (not 50):
average gain and loss are both 0, the epsilon guard makes `rs = 0`, and
`RSI = 100 - 100/(1+0) = 0`. -/
theorem rsi_constant_eq_zero (l : List ℚ) (c : ℚ) (hlen : 14 ≤ l.length)
    (hconst : ∀ x ∈ l, x = c) :
    calculate_rsi (ofList l) 14 (l.length - 1) = some 0 :=
  rsi_const_zero_aux l c hlen hconst

/-- Witness for C2 (amended) at a concrete 14-bar constant series. -/
theorem rsi_constant_eq_zero_witness :
    calculate_rsi (ofList (List.replicate 14 (7 : ℚ))) 14
      ((List.replicate 14 (7 : ℚ)).length - 1) = some 0 :=
  rsi_constant_eq_zero (List.replicate 14 (7 : ℚ)) 7 (by norm_num)
    (fun x hx => List.eq_of_mem_replicate hx)

/-! ### C5 -/

/-- Core computation for C5: the unguarded smart-trailing RSI of a
constant series with a full window is NaN (`rs = 0/0`). -/
theorem smart_rsi_const_none_aux (l : List ℚ) (c : ℚ) (hlen : 14 ≤ l.length)
    (hconst : ∀ x ∈ l, x = c) :
    smart_calculate_rsi (ofList l) 14 (l.length - 1) = none := by
  have hnot : ¬l.length - 1 + 1 < 14 := by omega
  have hidx : ∀ j, j < 14 → l.length - 1 + 1 - 14 + j < l.length := by omega
  have hgain : rollingMean 14 (whereGtZero (sdiff (ofList l))) (l.length - 1) =
      some ((14 : ℚ) * 0 / 14) := by
    refine rollingMean_const _ _ _ _ hnot ?_
    intro j hj
    exact whereGtZero_sdiff_const l c hconst _ (hidx j hj)
  have hloss : rollingMean 14 (negWhereLtZero (sdiff (ofList l))) (l.length - 1) =
      some ((14 : ℚ) * 0 / 14) := by
    refine rollingMean_const _ _ _ _ hnot ?_
    intro j hj
    exact negWhereLtZero_sdiff_const l c hconst _ (hidx j hj)
  simp only [smart_calculate_rsi]
  rw [hgain, hloss]
  norm_num [oadd, odiv, osub]

/-- Core fact for C5: the epsilon-guarded RSI is a defined value on every
full rolling window. -/
theorem guarded_rsi_defined_aux (s : OSeries) (period i : ℕ)
    (hi : period ≤ i + 1) : (calculate_rsi s period i).isSome = true := by
  have hnot : ¬i + 1 < period := by omega
  obtain ⟨g, hg, hg0⟩ := rollingMean_nonneg (whereGtZero (sdiff s)) period i hnot
    (fun j _ => whereGtZero_spec _ _)
  obtain ⟨lv, hl, hl0⟩ := rollingMean_nonneg (negWhereLtZero (sdiff s)) period i hnot
    (fun j _ => negWhereLtZero_spec _ _)
  simp only [calculate_rsi]
  rw [hg, hl]
  have heps : lv + eps ≠ 0 := by
    have h0 : (0 : ℚ) < eps := by norm_num [eps]
    positivity
  have hone : (1 : ℚ) + g / (lv + eps) ≠ 0 := by
    have h0 : (0 : ℚ) < eps := by norm_num [eps]
    positivity
  simp [oadd, odiv, osub, heps, hone]

/-- C5 counterexample: on a concrete 14-bar constant series (a window with
no losing bars), the RSI of `scripts/smart_trailing_stop.py calculate_rsi`
is undefined (NaN: `rs = 0/0` has no epsilon guard), while the guarded
`core/indicators.py calculate_rsi` is defined on the same input — so the
epsilon guard does NOT hold for every RSI implementation in the
codebase. -/
theorem smart_rsi_division_unguarded :
    smart_calculate_rsi (ofList (List.replicate 14 (5 : ℚ))) 14 13 = none ∧
    (calculate_rsi (ofList (List.replicate 14 (5 : ℚ))) 14 13).isSome = true := by
  have h1 := smart_rsi_const_none_aux (List.replicate 14 (5 : ℚ)) 5 (by norm_num)
    (fun x hx => List.eq_of_mem_replicate hx)
  have h2 := guarded_rsi_defined_aux (ofList (List.replicate 14 (5 : ℚ))) 14 13
    (by norm_num)
  simp only [List.length_replicate] at h1
  exact ⟨h1, h2⟩

/-- C5 (amended): the RSI implementations of `core/indicators.py` and
`core/scoring.py` guard the RS denominator with the `1e-9` epsilon, so on
any full rolling window (in particular one with no losing bars) their RSI
is a defined value; the implementation in
`scripts/smart_trailing_stop.py` divides `gain / loss` unguarded and is
NaN on a window with zero average loss and zero average gain. -/
theorem guarded_rsi_always_defined (s : OSeries) (period i : ℕ)
    (hi : period ≤ i + 1) :
    (calculate_rsi s period i).isSome = true ∧
    (scoring_rsi s period i).isSome = true :=
  ⟨guarded_rsi_defined_aux s period i hi, by
    rw [scoring_rsi_eq_calculate_rsi]
    exact guarded_rsi_defined_aux s period i hi⟩

/-- Witness for C5 (amended) at a concrete series and full window. -/
theorem guarded_rsi_always_defined_witness :
    (calculate_rsi (ofList [3, 1, 4, 1, 5, 9, 2, 6, 5, 3, 5, 8, 9, 7]) 14 13).isSome = true ∧
    (scoring_rsi (ofList [3, 1, 4, 1, 5, 9, 2, 6, 5, 3, 5, 8, 9, 7]) 14 13).isSome = true :=
  guarded_rsi_always_defined (ofList [3, 1, 4, 1, 5, 9, 2, 6, 5, 3, 5, 8, 9, 7]) 14 13
    (by norm_num)

/-! ### C7 -/

/-- C7: on a candle dataframe whose volume column is entirely zero, the
volume-ratio computation of `core/indicators.py calculate_volume_ratio`
and of `TimeframeAnalyzer.analyze_timeframe` does not divide: the
`vol_avg > 0` guard fails (the average is 0, or NaN on a short window),
and the neutral value 1.0 is returned. -/
theorem volume_ratio_zero_volume (volume : ℕ → ℚ) (n : ℕ)
    (hz : ∀ i, volume i = 0) :
    calculate_volume_ratio volume n 20 = some 1 ∧
    analyzeTimeframeVolumeRatio volume n = some 1 := by
  have havg : rollingMean 20 (liftSeries volume) (n - 1) = none ∨
      rollingMean 20 (liftSeries volume) (n - 1) = some 0 := by
    by_cases hc : n - 1 + 1 < 20
    · left
      unfold rollingMean rollingSum
      rw [if_pos hc]
      rfl
    · right
      have h := rollingMean_const (liftSeries volume) 20 (n - 1) 0 hc
        (fun j _ => by simp [liftSeries, hz])
      simpa using h
  constructor
  · simp only [calculate_volume_ratio]
    rcases havg with h | h <;> simp [h, ogtC]
  · simp only [analyzeTimeframeVolumeRatio]
    rcases havg with h | h <;> simp [h, ogtC]

/-- Witness for C7 on a concrete 25-bar all-zero volume column. -/
theorem volume_ratio_zero_volume_witness :
    calculate_volume_ratio (fun _ => 0) 25 20 = some 1 ∧
    analyzeTimeframeVolumeRatio (fun _ => 0) 25 = some 1 :=
  volume_ratio_zero_volume (fun _ => 0) 25 (fun _ => rfl)

/-! ### C3 -/

/-- The three LONG take-profit targets sit at R-multiples 1.5, 3.0, 4.5. -/
theorem tp_ratios_long_aux (entry stop : ℚ) (h : entry ≠ stop) :
    ((calculate_take_profits entry stop .LONG 3).map fun t =>
      (t.price - entry) / (entry - stop)) = [3 / 2, 3, 9 / 2] := by
  have hne : entry - stop ≠ 0 := sub_ne_zero.mpr h
  simp only [calculate_take_profits, show List.range 3 = [0, 1, 2] from rfl,
    List.map_cons, List.map_nil, List.cons.injEq, and_true]
  refine ⟨?_, ?_, ?_⟩ <;> (field_simp; ring)

/-- The three SHORT take-profit targets sit at mirrored R-multiples
1.5, 3.0, 4.5. -/
theorem tp_ratios_short_aux (entry stop : ℚ) (h : entry ≠ stop) :
    ((calculate_take_profits entry stop .SHORT 3).map fun t =>
      (entry - t.price) / (stop - entry)) = [3 / 2, 3, 9 / 2] := by
  have hne : stop - entry ≠ 0 := sub_ne_zero.mpr (Ne.symm h)
  simp only [calculate_take_profits, show List.range 3 = [0, 1, 2] from rfl,
    List.map_cons, List.map_nil, List.cons.injEq, and_true]
  refine ⟨?_, ?_, ?_⟩ <;> (field_simp; ring)

/-- C3 counterexample: at entry 100, stop 90, LONG, the R-multiples of the
targets returned by `RiskManager.calculate_take_profits` are 1.5/3.0/4.5
(prices 115/130/145), not the claimed 2.5/4.0/6.0.  (The 2.5/4.0/6.0
ladder belongs to the separate `small_account_manager.py`
`calculate_take_profits`.) -/
theorem take_profits_not_at_claimed_multiples :
    ((calculate_take_profits 100 90 .LONG 3).map fun t =>
      (t.price - 100) / (100 - 90)) = [3 / 2, 3, 9 / 2] ∧
    ((calculate_take_profits 100 90 .LONG 3).map fun t =>
      (t.price - 100) / (100 - 90)) ≠ [5 / 2, 4, 6] := by
  have h := tp_ratios_long_aux 100 90 (by norm_num)
  refine ⟨h, ?_⟩
  rw [h]
  norm_num

/-- C3 (amended): the take-profit targets of
`RiskManager.calculate_take_profits` sit at R-multiples 1.5, 3.0 and 4.5
(`rr_ratio = i * 1.5`): whenever entry ≠ stop, each LONG target satisfies
`(target - entry)/(entry - stop) = R` and each SHORT target the mirrored
`(entry - target)/(stop - entry) = R` for R in (1.5, 3.0, 4.5). -/
theorem take_profits_r_multiples (entry stop : ℚ) (h : entry ≠ stop) :
    ((calculate_take_profits entry stop .LONG 3).map fun t =>
      (t.price - entry) / (entry - stop)) = [3 / 2, 3, 9 / 2] ∧
    ((calculate_take_profits entry stop .SHORT 3).map fun t =>
      (entry - t.price) / (stop - entry)) = [3 / 2, 3, 9 / 2] :=
  ⟨tp_ratios_long_aux entry stop h, tp_ratios_short_aux entry stop h⟩

/-- Witness for C3 (amended) at entry 100, stop 90. -/
theorem take_profits_r_multiples_witness :
    ((calculate_take_profits 100 90 .LONG 3).map fun t =>
      (t.price - 100) / ((100 : ℚ) - 90)) = [3 / 2, 3, 9 / 2] ∧
    ((calculate_take_profits 100 90 .SHORT 3).map fun t =>
      ((100 : ℚ) - t.price) / (90 - 100)) = [3 / 2, 3, 9 / 2] :=
  take_profits_r_multiples 100 90 (by norm_num)

/-! ### C9 -/

/-- C9 counterexample: on a concrete two-bar dataframe with an unchanged
close (closes 1, 1; volumes 5, 7), `core/indicators.py calculate_obv`
yields 0 (first-bar NaN filled to 0, unchanged close contributes 0) while
`scripts/smart_trailing_stop.py calculate_obv` yields -2 (first bar
contributes +5, the unchanged close contributes -7): the two OBV
implementations are not equivalent. -/
theorem obv_implementations_differ :
    calculate_obv (fun i => [(1 : ℚ), 1].getD i 0) (fun i => [(5 : ℚ), 7].getD i 0) 1 = 0 ∧
    smart_calculate_obv (fun i => [(1 : ℚ), 1].getD i 0) (fun i => [(5 : ℚ), 7].getD i 0) 1 = -2 ∧
    calculate_obv (fun i => [(1 : ℚ), 1].getD i 0) (fun i => [(5 : ℚ), 7].getD i 0) 1 ≠
      smart_calculate_obv (fun i => [(1 : ℚ), 1].getD i 0) (fun i => [(5 : ℚ), 7].getD i 0) 1 := by
  have h1 : calculate_obv (fun i => [(1 : ℚ), 1].getD i 0)
      (fun i => [(5 : ℚ), 7].getD i 0) 1 = 0 := by
    simp [calculate_obv, obvContrib, npsign, Finset.sum_range_succ]
  have h2 : smart_calculate_obv (fun i => [(1 : ℚ), 1].getD i 0)
      (fun i => [(5 : ℚ), 7].getD i 0) 1 = -2 := by
    simp [smart_calculate_obv, smartObvContrib, Finset.sum_range_succ]
    norm_num
  refine ⟨h1, h2, ?_⟩
  rw [h1, h2]
  norm_num

/-- C9 (amended): the two OBV implementations differ on the first bar
(`core/indicators.py` contributes 0 where the smart-trailing version
contributes `+volume[0]`) and on unchanged-close bars (0 versus
`-volume`); on any dataframe whose first volume is 0 and whose
consecutive closes are always strictly different, the two cumulative
series coincide at every index. -/
theorem obv_equal_without_flat_bars (close volume : ℕ → ℚ)
    (h0 : volume 0 = 0) (hne : ∀ j, close (j + 1) ≠ close j) (i : ℕ) :
    calculate_obv close volume i = smart_calculate_obv close volume i := by
  unfold calculate_obv smart_calculate_obv
  apply Finset.sum_congr rfl
  intro j _
  cases j with
  | zero => simp [obvContrib, smartObvContrib, h0]
  | succ k =>
    have hk := hne k
    simp only [obvContrib, smartObvContrib, npsign]
    rcases lt_trichotomy (close (k + 1)) (close k) with hlt | heq | hgt
    · have h1 : ¬(0 < close (k + 1) - close k) := by linarith
      have h2 : close (k + 1) - close k < 0 := by linarith
      rw [if_neg h1, if_pos h2, if_pos (le_of_lt h2)]
      ring
    · exact absurd heq hk
    · have h1 : 0 < close (k + 1) - close k := by linarith
      have h3 : ¬(close (k + 1) - close k ≤ 0) := by linarith
      rw [if_pos h1, if_neg h3]
      ring

/-- Witness for C9 (amended) on a strictly increasing close column whose
first volume is 0. -/
theorem obv_equal_without_flat_bars_witness :
    calculate_obv (fun j => (j : ℚ)) (fun j => (j : ℚ)) 3 =
      smart_calculate_obv (fun j => (j : ℚ)) (fun j => (j : ℚ)) 3 :=
  obv_equal_without_flat_bars (fun j => (j : ℚ)) (fun j => (j : ℚ))
    (by norm_num) (fun j => by simp) 3

/-! ### C8 -/

/-- A two-message validation segment is empty iff neither condition
fired. -/
theorem segment_two_nil {p q : Prop} [Decidable p] [Decidable q]
    {m₁ m₂ : String} (h : (if p then [m₁] else if q then [m₂] else []) = []) :
    ¬p ∧ ¬q := by
  constructor <;> intro hc <;> revert h <;> split_ifs <;> simp_all

/-- A one-message validation segment is empty iff its condition did not
fire. -/
theorem segment_one_nil {p : Prop} [Decidable p] {m : String}
    (h : (if p then [m] else []) = []) : ¬p := by
  intro hc
  rw [if_pos hc] at h
  simp at h

/-- C8: `Config.validate` returns `(False, errors)` with a non-empty error
list whenever any of the three API credentials is missing (empty) or still
equal to its placeholder; and it returns `(True, [])` only when no
credential is missing or a placeholder and the numeric settings are all in
range. -/
theorem config_validate_spec (cfg : Config) :
    ((cfg.KUCOIN_API_KEY = "" ∨ cfg.KUCOIN_API_KEY = "your_api_key_here" ∨
      cfg.KUCOIN_API_SECRET = "" ∨ cfg.KUCOIN_API_SECRET = "your_api_secret_here" ∨
      cfg.KUCOIN_API_PASSPHRASE = "" ∨
      cfg.KUCOIN_API_PASSPHRASE = "your_api_passphrase_here") →
      cfg.validate.1 = false ∧ cfg.validate.2 ≠ []) ∧
    (cfg.validate.1 = true →
      cfg.validate.2 = [] ∧
      cfg.KUCOIN_API_KEY ≠ "" ∧ cfg.KUCOIN_API_KEY ≠ "your_api_key_here" ∧
      cfg.KUCOIN_API_SECRET ≠ "" ∧ cfg.KUCOIN_API_SECRET ≠ "your_api_secret_here" ∧
      cfg.KUCOIN_API_PASSPHRASE ≠ "" ∧
      cfg.KUCOIN_API_PASSPHRASE ≠ "your_api_passphrase_here" ∧
      1 ≤ cfg.DEFAULT_LEVERAGE ∧ cfg.DEFAULT_LEVERAGE ≤ cfg.MAX_LEVERAGE ∧
      0 < cfg.DEFAULT_RISK_PERCENT ∧ cfg.DEFAULT_RISK_PERCENT ≤ 100 ∧
      0 < cfg.MIN_POSITION_SIZE) := by
  have hfst : cfg.validate.1 = decide (cfg.validate.2.length = 0) := rfl
  constructor
  · intro hcred
    have hne : cfg.validate.2 ≠ [] := by
      rcases hcred with h | h | h | h | h | h <;> simp [Config.validate, h]
    refine ⟨?_, hne⟩
    rw [hfst]
    simpa using fun hlen => hne (List.length_eq_zero.mp hlen)
  · intro htrue
    have hnil : cfg.validate.2 = [] := by
      rw [hfst] at htrue
      exact List.length_eq_zero.mp (of_decide_eq_true htrue)
    refine ⟨hnil, ?_⟩
    have hsegs := hnil
    simp only [Config.validate, List.append_eq_nil] at hsegs
    obtain ⟨⟨⟨⟨⟨⟨_, hkey⟩, hsec⟩, hpass⟩, hlev⟩, hrisk⟩, hmin⟩ := hsegs
    obtain ⟨hk1, hk2⟩ := segment_two_nil hkey
    obtain ⟨hs1, hs2⟩ := segment_two_nil hsec
    obtain ⟨hp1, hp2⟩ := segment_two_nil hpass
    have hl := segment_one_nil hlev
    have hr := segment_one_nil hrisk
    have hm := segment_one_nil hmin
    push_neg at hl hr hm
    exact ⟨hk1, hk2, hs1, hs2, hp1, hp2, hl.1, hl.2, hr.1, hr.2, hm⟩

/-- Witness for C8 at two concrete configurations: a placeholder API key
yields `(False, non-empty errors)`, and a fully configured record
satisfies the stated conditions whenever validate reports success. -/
theorem config_validate_spec_witness :
    (Config.validate ⟨true, "your_api_key_here", "s", "p", 10, 100, 1, 10⟩).1 = false ∧
    (Config.validate ⟨true, "your_api_key_here", "s", "p", 10, 100, 1, 10⟩).2 ≠ [] :=
  (config_validate_spec ⟨true, "your_api_key_here", "s", "p", 10, 100, 1, 10⟩).1
    (Or.inr (Or.inl rfl))

/-! ### C6 -/

/-- Every timeframe weight is positive. -/
theorem tfWeight_pos (tf : TF) : 0 < tfWeight tf := by
  cases tf <;> norm_num [tfWeight]

/-- The per-timeframe raw score lies in [0, 100] (the rubric allocates at
most 30+10+10+10+5+5+10+5+7+5+3 = 100 points). -/
theorem tfScore_bounds (a : TfAnalysis) (d : Side) :
    0 ≤ tfScore a d ∧ tfScore a d ≤ 100 := by
  cases d <;>
    · simp only [tfScore]
      constructor
      · repeat' apply add_nonneg
        all_goals split_ifs <;> norm_num
      · have h : (30 : ℚ) + 10 + 10 + 10 + 5 + 5 + 10 + 5 + 7 + 5 + 3 = 100 := by
          norm_num
        rw [← h]
        repeat' apply add_le_add
        all_goals split_ifs <;> norm_num

/-- The confluence fold keeps `0 ≤ total_score ≤ max_score`. -/
theorem confluence_fold_bounds (direction : Side)
    (analyses : List (TF × TfAnalysis)) (acc : ℚ × ℚ)
    (h0 : 0 ≤ acc.1) (h1 : acc.1 ≤ acc.2) :
    0 ≤ (analyses.foldl (fun (acc : ℚ × ℚ) ta =>
        if ¬ta.2.valid then acc
        else (acc.1 + tfScore ta.2 direction / 100 * tfWeight ta.1,
          acc.2 + tfWeight ta.1)) acc).1 ∧
    (analyses.foldl (fun (acc : ℚ × ℚ) ta =>
        if ¬ta.2.valid then acc
        else (acc.1 + tfScore ta.2 direction / 100 * tfWeight ta.1,
          acc.2 + tfWeight ta.1)) acc).1 ≤
    (analyses.foldl (fun (acc : ℚ × ℚ) ta =>
        if ¬ta.2.valid then acc
        else (acc.1 + tfScore ta.2 direction / 100 * tfWeight ta.1,
          acc.2 + tfWeight ta.1)) acc).2 := by
  induction analyses generalizing acc with
  | nil => exact ⟨h0, h1⟩
  | cons ta rest ih =>
    simp only [List.foldl_cons]
    by_cases hv : ¬ta.2.valid
    · rw [if_pos hv]
      exact ih acc h0 h1
    · rw [if_neg hv]
      have hw : 0 < tfWeight ta.1 := tfWeight_pos ta.1
      obtain ⟨hs0, hs1⟩ := tfScore_bounds ta.2 direction
      have hws0 : 0 ≤ tfScore ta.2 direction / 100 * tfWeight ta.1 := by positivity
      have hws1 : tfScore ta.2 direction / 100 * tfWeight ta.1 ≤ tfWeight ta.1 := by
        have hq : tfScore ta.2 direction / 100 ≤ 1 := by
          rw [div_le_one (by norm_num)]
          exact hs1
        calc tfScore ta.2 direction / 100 * tfWeight ta.1
            ≤ 1 * tfWeight ta.1 := by
              exact mul_le_mul_of_nonneg_right hq (le_of_lt hw)
          _ = tfWeight ta.1 := one_mul _
      exact ih _ (add_nonneg h0 hws0) (by dsimp only; linarith)

/-- `round2` keeps a value of [0, 100] inside [0, 100]. -/
theorem round2_mem (x : ℚ) (h0 : 0 ≤ x) (h1 : x ≤ 100) :
    0 ≤ round2 x ∧ round2 x ≤ 100 := by
  unfold round2
  have hl : (0 : ℤ) ≤ round (x * 100) := by
    have h := Int.floor_le_floor (α := ℚ) (by linarith : (0 : ℚ) + 1 / 2 ≤ x * 100 + 1 / 2)
    rw [← round_eq, ← round_eq] at h
    simpa using h
  have hu : round (x * 100) ≤ 10000 := by
    have h := Int.floor_le_floor (α := ℚ)
      (by linarith : x * 100 + 1 / 2 ≤ (10000 : ℚ) + 1 / 2)
    rw [← round_eq, ← round_eq] at h
    simpa using h
  constructor
  · exact div_nonneg (by exact_mod_cast hl) (by norm_num)
  · rw [div_le_iff₀ (by norm_num)]
    calc ((round (x * 100) : ℚ)) ≤ ((10000 : ℤ) : ℚ) := by exact_mod_cast hu
      _ = 100 * 100 := by norm_num

/-- The clamp `max(0, min(100, raw))` of `score_asset` lands in [0, 100]
for every raw value, including NaN, and so does its 2-decimal rounding. -/
theorem round2_clamp_bounds (o : Option ℚ) :
    0 ≤ round2 (max 0 (pymin 100 o)) ∧ round2 (max 0 (pymin 100 o)) ≤ 100 := by
  have hx1 : max 0 (pymin 100 o) ≤ 100 := by
    apply max_le (by norm_num)
    cases o with
    | none => norm_num [pymin]
    | some v => simp [pymin]
  exact round2_mem _ (le_max_left _ _) hx1

/-- C6 counterexample: a concrete pair of valid timeframe analyses (a
NEUTRAL daily trend worth 10 rubric points and a 4h record worth 0) makes
`calculate_confluence_score` return 40/7 rounded to 5.71 — a score that is
not an integer, refuting "every score is an integer in [0, 100]". -/
theorem confluence_score_not_integer :
    (calculate_confluence_score
      [(TF.d1, ⟨true, .NEUTRAL, false, false, false, false, false, false, false,
        true, false, false, false, 1, .FALLING, false⟩),
       (TF.h4, ⟨true, .BEARISH, false, false, false, false, false, false, false,
        true, false, false, false, 1, .FALLING, false⟩)] .LONG).score = 571 / 100 ∧
    ((571 : ℚ) / 100).den ≠ 1 := by
  have hround : round2 ((40 : ℚ) / 7) = 571 / 100 := by
    have h1 : ((40 : ℚ) / 7) * 100 = 4000 / 7 := by norm_num
    have h2 : round ((4000 : ℚ) / 7) = 571 := by
      rw [round_eq]
      have hfl : ⌊(4000 : ℚ) / 7 + 1 / 2⌋ = 571 := by
        apply Int.floor_eq_iff.mpr
        constructor <;> norm_num
      exact hfl
    unfold round2
    rw [h1, h2]
    norm_num
  constructor
  · have hfold : (calculate_confluence_score
        [(TF.d1, ⟨true, .NEUTRAL, false, false, false, false, false, false, false,
          true, false, false, false, 1, .FALLING, false⟩),
         (TF.h4, ⟨true, .BEARISH, false, false, false, false, false, false, false,
          true, false, false, false, 1, .FALLING, false⟩)] .LONG).score =
        round2 ((40 : ℚ) / 7) := by
      have e1 : ¬(TATrend.NEUTRAL = TATrend.BULLISH) := by decide
      have e2 : ¬(TATrend.BEARISH = TATrend.BULLISH) := by decide
      have e3 : ¬(TATrend.BEARISH = TATrend.NEUTRAL) := by decide
      have e4 : ¬(ObvTrend.FALLING = ObvTrend.RISING) := by decide
      simp only [calculate_confluence_score, List.foldl_cons, List.foldl_nil,
        tfScore, tfWeight, if_neg e1, if_neg e2, if_neg e3, if_neg e4]
      norm_num
    rw [hfold, hround]
  · norm_num

/-- C6 (amended): the scores are real (rational) values, reported rounded
to two decimals, and lie in the closed interval [0, 100]: `score_asset`
clamps with `max(0, min(100, raw))`, and `calculate_confluence_score`
forms a weight-normalized convex combination of per-timeframe scores in
[0, 100].  They are not integers in general. -/
theorem scores_real_valued_in_range (sqrtFn : ℚ → ℚ)
    (close high low volume : ℕ → ℚ) (n : ℕ) (hn : 51 ≤ n)
    (analyses : List (TF × TfAnalysis)) (direction : Side) :
    (0 ≤ (score_asset sqrtFn close high low volume n).long_score ∧
      (score_asset sqrtFn close high low volume n).long_score ≤ 100) ∧
    (0 ≤ (score_asset sqrtFn close high low volume n).short_score ∧
      (score_asset sqrtFn close high low volume n).short_score ≤ 100) ∧
    (0 ≤ (calculate_confluence_score analyses direction).score ∧
      (calculate_confluence_score analyses direction).score ≤ 100) := by
  refine ⟨?_, ?_, ?_⟩
  · simp only [score_asset]
    exact round2_clamp_bounds _
  · simp only [score_asset]
    exact round2_clamp_bounds _
  · simp only [calculate_confluence_score]
    obtain ⟨hf0, hf1⟩ := confluence_fold_bounds direction analyses (0, 0) le_rfl le_rfl
    set acc := analyses.foldl (fun (acc : ℚ × ℚ) ta =>
        if ¬ta.2.valid then acc
        else (acc.1 + tfScore ta.2 direction / 100 * tfWeight ta.1,
          acc.2 + tfWeight ta.1)) (0, 0) with hacc
    by_cases hm : 0 < acc.2
    · rw [if_pos hm]
      apply round2_mem
      · positivity
      · have hq : acc.1 / acc.2 ≤ 1 := by
          rw [div_le_one hm]
          exact hf1
        calc acc.1 / acc.2 * 100 ≤ 1 * 100 :=
              mul_le_mul_of_nonneg_right hq (by norm_num)
          _ = 100 := one_mul _
    · rw [if_neg hm]
      exact round2_mem 0 le_rfl (by norm_num)

/-- Witness for C6 (amended) at a 51-bar constant dataframe and an empty
analyses dictionary. -/
theorem scores_real_valued_in_range_witness :
    (0 ≤ (score_asset (fun q => q) (fun _ => 1) (fun _ => 1) (fun _ => 1)
        (fun _ => 1) 51).long_score ∧
      (score_asset (fun q => q) (fun _ => 1) (fun _ => 1) (fun _ => 1)
        (fun _ => 1) 51).long_score ≤ 100) ∧
    (0 ≤ (score_asset (fun q => q) (fun _ => 1) (fun _ => 1) (fun _ => 1)
        (fun _ => 1) 51).short_score ∧
      (score_asset (fun q => q) (fun _ => 1) (fun _ => 1) (fun _ => 1)
        (fun _ => 1) 51).short_score ≤ 100) ∧
    (0 ≤ (calculate_confluence_score [] .LONG).score ∧
      (calculate_confluence_score [] .LONG).score ≤ 100) :=
  scores_real_valued_in_range (fun q => q) (fun _ => 1) (fun _ => 1) (fun _ => 1)
    (fun _ => 1) 51 (by norm_num) [] .LONG

end HekTradeHub
